import Mathlib

/-!
Shallow embedding of `src/components/validation/resources/mod.rs`: the
validation-harness codec abstraction (`ResourceCodec`), its inverse-encoder
derivation (`into_encoder` together with the helper translation functions
`deserializer_config_to_serializer` and `decoder_framing_to_encoding_framer`),
the `ResourceDirection` / `ResourceDefinition` tags, and the `ExternalResource`
composition root with its two spawn operations.

Types that the source file imports from elsewhere in the repository (the
codecs library, `vector_core`, and the crate-level codec configuration
wrappers) are modelled from the specification; each such definition carries a
doc comment starting with the words Modelled from the spec.
-/

/-- Modelled from the spec: the event data shapes a codec can carry
(`vector_core::config::DataType`, a set over log, metric and trace). -/
structure DataType where
  log : Bool
  metric : Bool
  trace : Bool
deriving DecidableEq, Repr

/-- The DataType containing only log events. -/
def DataType.onlyLog : DataType := ⟨true, false, false⟩

/-- The DataType containing every event shape. -/
def DataType.all : DataType := ⟨true, true, true⟩

/-- Modelled from the spec: the deserializer formats of the codecs library
(`codecs::decoding::DeserializerConfig`); exactly the six formats named by the
translation table in the source (lines 126-146). -/
inductive DeserializerConfig where
  | Bytes
  | Json
  | Syslog
  | Native
  | NativeJson
  | Gelf
deriving DecidableEq, Repr

/-- Modelled from the spec: the serializer formats of the codecs library
(`codecs::encoding::SerializerConfig`) that the translation table produces. -/
inductive SerializerConfig where
  | Text
  | Json
  | Logfmt
  | Native
  | NativeJson
  | Gelf
deriving DecidableEq, Repr

/-- Modelled from the spec: a built serializer of the codecs library
(`codecs::encoding::Serializer`), identified by its format. -/
inductive Serializer where
  | Text
  | Json
  | Logfmt
  | Native
  | NativeJson
  | Gelf
deriving DecidableEq, Repr

/-- Modelled from the spec: building a serializer from its declarative
configuration (the codecs library; building is assumed to never fail for
already-validated configurations, per section 4.1 of the spec). -/
def SerializerConfig.build : SerializerConfig → Serializer
  | SerializerConfig.Text => Serializer.Text
  | SerializerConfig.Json => Serializer.Json
  | SerializerConfig.Logfmt => Serializer.Logfmt
  | SerializerConfig.Native => Serializer.Native
  | SerializerConfig.NativeJson => Serializer.NativeJson
  | SerializerConfig.Gelf => Serializer.Gelf

/-- Modelled from the spec: the event data type accepted by each serializer
format (`SerializerConfig::input_type` of the codecs library; the spec only
requires that `allowed_event_data_types` forwards this value, so the concrete
table is a faithful placeholder for the external library). -/
def SerializerConfig.input_type : SerializerConfig → DataType
  | SerializerConfig.Text => DataType.onlyLog
  | SerializerConfig.Json => DataType.all
  | SerializerConfig.Logfmt => DataType.onlyLog
  | SerializerConfig.Native => DataType.all
  | SerializerConfig.NativeJson => DataType.all
  | SerializerConfig.Gelf => DataType.onlyLog

/-- Modelled from the spec: the event data type produced by each deserializer
format (`DeserializerConfig::output_type` of the codecs library). -/
def DeserializerConfig.output_type : DeserializerConfig → DataType
  | DeserializerConfig.Bytes => DataType.onlyLog
  | DeserializerConfig.Json => DataType.onlyLog
  | DeserializerConfig.Syslog => DataType.onlyLog
  | DeserializerConfig.Native => DataType.all
  | DeserializerConfig.NativeJson => DataType.all
  | DeserializerConfig.Gelf => DataType.onlyLog

namespace decoding

/-- Modelled from the spec: options of the character-delimited decoder framing
(`codecs::decoding::CharacterDelimitedDecoderOptions`): the delimiter byte and
an optional maximum frame length. -/
structure CharacterDelimitedDecoderOptions where
  delimiter : Nat
  max_length : Option Nat
deriving DecidableEq, Repr

/-- Modelled from the spec: options of the newline-delimited decoder framing
(an optional maximum frame length, intentionally dropped by the inversion). -/
structure NewlineDelimitedDecoderOptions where
  max_length : Option Nat
deriving DecidableEq, Repr

/-- Modelled from the spec: options of the octet-counting decoder framing. -/
structure OctetCountingDecoderOptions where
  max_length : Option Nat
deriving DecidableEq, Repr

/-- Modelled from the spec: the decoder framing configurations of the codecs
library (`codecs::decoding::FramingConfig`), exactly the five shapes matched
by `decoder_framing_to_encoding_framer` (source lines 148-168). -/
inductive FramingConfig where
  | Bytes
  | CharacterDelimited (character_delimited : CharacterDelimitedDecoderOptions)
  | LengthDelimited
  | NewlineDelimited (newline_delimited : NewlineDelimitedDecoderOptions)
  | OctetCounting (octet_counting : OctetCountingDecoderOptions)
deriving DecidableEq, Repr

end decoding

namespace encoding

/-- Modelled from the spec: options of the character-delimited encoder framing
(`codecs::encoding::CharacterDelimitedEncoderOptions`): only the delimiter. -/
structure CharacterDelimitedEncoderOptions where
  delimiter : Nat
deriving DecidableEq, Repr

/-- Modelled from the spec: the encoder framing configurations of the codecs
library (`codecs::encoding::FramingConfig`): the four shapes produced by the
inversion; there is no octet-counting encoder framing. -/
inductive FramingConfig where
  | Bytes
  | CharacterDelimited (character_delimited : CharacterDelimitedEncoderOptions)
  | LengthDelimited
  | NewlineDelimited
deriving DecidableEq, Repr

/-- Modelled from the spec: a built framer of the codecs library
(`codecs::encoding::Framer`); the Bytes framer is the default byte framer
(`Framer::Bytes(BytesEncoder::new())`). -/
inductive Framer where
  | Bytes
  | CharacterDelimited (delimiter : Nat)
  | LengthDelimited
  | NewlineDelimited
deriving DecidableEq, Repr

/-- Modelled from the spec: building an encoder framer from its declarative
configuration (infallible in the codecs library). -/
def FramingConfig.build : FramingConfig → Framer
  | FramingConfig.Bytes => Framer.Bytes
  | FramingConfig.CharacterDelimited cd => Framer.CharacterDelimited cd.delimiter
  | FramingConfig.LengthDelimited => Framer.LengthDelimited
  | FramingConfig.NewlineDelimited => Framer.NewlineDelimited

end encoding

/-- Modelled from the spec: the default stream framing a deserializer format
declares for itself (`DeserializerConfig::default_stream_framing` of the
codecs library): length-delimited for the native format, newline-delimited
otherwise; never octet-counting. -/
def DeserializerConfig.default_stream_framing : DeserializerConfig → decoding.FramingConfig
  | DeserializerConfig.Native => decoding.FramingConfig.LengthDelimited
  | _ => decoding.FramingConfig.NewlineDelimited ⟨none⟩

/-- Modelled from the spec: the log-namespace marker carried by the decoding
configuration wrapper; not consulted by any operation of this core. -/
inductive LogNamespace where
  | Legacy
  | Vector
deriving DecidableEq, Repr

/-- Modelled from the spec: the crate-level decoding configuration wrapper
(`crate::codecs::DecodingConfig`): framing, deserializer configuration and a
log namespace; its accessor `config` returns the deserializer configuration. -/
structure DecodingConfig where
  framing : decoding.FramingConfig
  decoding : DeserializerConfig
  log_namespace : LogNamespace
deriving DecidableEq, Repr

/-- Accessor mirroring `DecodingConfig::config`, which returns the stored
deserializer configuration. -/
def DecodingConfig.config (c : DecodingConfig) : DeserializerConfig :=
  c.decoding

/-- Modelled from the spec: the crate-level encoding configuration wrapper
(`crate::codecs::EncodingConfig`), wrapping the serializer configuration of
the component (ancillary transformer settings are external to this core). -/
structure EncodingConfig where
  encoding : SerializerConfig
deriving DecidableEq, Repr

/-- Accessor mirroring `EncodingConfig::config`, which returns the stored
serializer configuration. -/
def EncodingConfig.config (c : EncodingConfig) : SerializerConfig :=
  c.encoding

/-- Modelled from the spec: building the serializer from the crate-level
encoding configuration (never fails for validated configuration). -/
def EncodingConfig.build (c : EncodingConfig) : Serializer :=
  c.encoding.build

/-- Modelled from the spec: the crate-level encoding configuration with an
optional explicit framer (`crate::codecs::EncodingConfigWithFraming`); its
accessor `config` returns the pair of the optional framing configuration and
the serializer configuration. -/
structure EncodingConfigWithFraming where
  framing : Option encoding.FramingConfig
  encoding : EncodingConfig
deriving DecidableEq, Repr

/-- Accessor mirroring `EncodingConfigWithFraming::config`, which returns the
pair of the optional framing and the serializer configuration. -/
def EncodingConfigWithFraming.config (c : EncodingConfigWithFraming) :
    Option encoding.FramingConfig × SerializerConfig :=
  (c.framing, c.encoding.encoding)

/-- Modelled from the spec: the encoder produced for the simulated resource
(`crate::codecs::Encoder` over `encoding::Framer`): a framer paired with a
serializer, as assembled by `Encoder::new(framer, serializer)`. -/
structure Encoder where
  framer : encoding.Framer
  serializer : Serializer
deriving DecidableEq, Repr

/-- The codec used by the external resource (source lines 27-54): a tagged
union over the four directionally-specific configuration shapes. -/
inductive ResourceCodec where
  | Encoding (config : EncodingConfig)
  | EncodingWithFraming (config : EncodingConfigWithFraming)
  | Decoding (config : DecodingConfig)
  | DecodingWithFraming (config : DecodingConfig) (framing : decoding.FramingConfig)
deriving DecidableEq, Repr

/-- Translation table from deserializer format to serializer configuration,
followed by the build step (source lines 126-146): bytes maps to text, json to
json, syslog to logfmt, native to native, native-json to native-json and gelf
to gelf; the match is exhaustive, with no default arm. -/
def deserializer_config_to_serializer (config : DeserializerConfig) : Serializer :=
  let serializer_config := match config with
    | DeserializerConfig.Bytes => SerializerConfig.Text
    | DeserializerConfig.Json => SerializerConfig.Json
    | DeserializerConfig.Syslog => SerializerConfig.Logfmt
    | DeserializerConfig.Native => SerializerConfig.Native
    | DeserializerConfig.NativeJson => SerializerConfig.NativeJson
    | DeserializerConfig.Gelf => SerializerConfig.Gelf
  serializer_config.build

/-- Translation from decoder framing to encoder framer (source lines 148-168).
The octet-counting arm of the source is a bare panic macro for unimplemented
code, which aborts the process with the fixed generic message given here; the
embedding surfaces that abort as the error case of Except. -/
def decoder_framing_to_encoding_framer (framing : decoding.FramingConfig) :
    Except String encoding.Framer := do
  let framing_config ← match framing with
    | decoding.FramingConfig.Bytes => pure encoding.FramingConfig.Bytes
    | decoding.FramingConfig.CharacterDelimited character_delimited =>
        pure (encoding.FramingConfig.CharacterDelimited ⟨character_delimited.delimiter⟩)
    | decoding.FramingConfig.LengthDelimited => pure encoding.FramingConfig.LengthDelimited
    | decoding.FramingConfig.NewlineDelimited _ => pure encoding.FramingConfig.NewlineDelimited
    | decoding.FramingConfig.OctetCounting _ => Except.error "not yet implemented"
  pure framing_config.build

/-- Gets the allowed event data types for the configured codec (source lines
62-70). -/
def ResourceCodec.allowed_event_data_types : ResourceCodec → DataType
  | ResourceCodec.Encoding encoding => encoding.config.input_type
  | ResourceCodec.EncodingWithFraming encoding => encoding.config.2.input_type
  | ResourceCodec.Decoding decoding => decoding.config.output_type
  | ResourceCodec.DecodingWithFraming decoding _ => decoding.config.output_type

/-- Gets an encoder for this codec (source lines 76-105), generated as an
inverse to the input codec; the error case of Except stands for the process
aborts of the panic sites reachable through the translation helpers. -/
def ResourceCodec.into_encoder : ResourceCodec → Except String Encoder
  | ResourceCodec.Encoding config =>
      Except.ok ⟨encoding.Framer.Bytes, config.build⟩
  | ResourceCodec.EncodingWithFraming config =>
      let (maybe_framing, serializer) := config.config
      Except.ok ⟨(maybe_framing.getD encoding.FramingConfig.Bytes).build, serializer.build⟩
  | ResourceCodec.Decoding config => do
      let framer ← decoder_framing_to_encoding_framer config.config.default_stream_framing
      pure ⟨framer, deserializer_config_to_serializer config.config⟩
  | ResourceCodec.DecodingWithFraming config framing => do
      let framer ← decoder_framing_to_encoding_framer framing
      pure ⟨framer, deserializer_config_to_serializer config.config⟩

/-- Receiver mode of a Rust method, read off its declared signature: taking
the receiver by value (move), by shared reference, or by mutable reference. -/
inductive ReceiverMode where
  | ByValue
  | ByRef
  | ByRefMut
deriving DecidableEq, Repr

/-- Receiver mode of `ResourceCodec::into_encoder` as declared at source line
76: the method takes its receiver by shared reference. -/
def into_encoder_receiver : ReceiverMode := ReceiverMode.ByRef

/-- Receiver mode of `ResourceCodec::allowed_event_data_types` as declared at
source line 62: the method takes its receiver by value. -/
def allowed_event_data_types_receiver : ReceiverMode := ReceiverMode.ByValue

/-- Direction that the resource is operating in (source lines 171-195). -/
inductive ResourceDirection where
  | Pull
  | Push
deriving DecidableEq, Repr

/-- Modelled from the spec: the configuration of the HTTP resource kind
(`HttpConfig`, defined in the sibling http module); its fields are external to
this core. -/
structure HttpConfig where
deriving DecidableEq, Repr

/-- A resource definition (source lines 203-205): a tagged union over resource
kinds, today exactly one member. -/
inductive ResourceDefinition where
  | Http (config : HttpConfig)
deriving DecidableEq, Repr

/-- An external resource associated with a component (source lines 227-231):
the product of a direction, a resource definition and a codec. -/
structure ExternalResource where
  direction : ResourceDirection
  definition : ResourceDefinition
  codec : ResourceCodec
deriving DecidableEq, Repr

/-- Creates a new ExternalResource from the given direction, definition and
codec (source lines 235-245); the conversion contracts of the source promote
the concrete sub-configurations, here already the union members. -/
def ExternalResource.new (direction : ResourceDirection) (definition : ResourceDefinition)
    (codec : ResourceCodec) : ExternalResource :=
  ⟨direction, definition, codec⟩

/-- Description of the delegated spawn call an ExternalResource dispatches to
its resource-kind implementation: which contract was invoked, on which kind
configuration, with which direction and codec. The channel endpoint and the
task coordinator are external collaborators carried through unchanged. -/
inductive SpawnCall where
  | httpInput (config : HttpConfig) (direction : ResourceDirection) (codec : ResourceCodec)
  | httpOutput (config : HttpConfig) (direction : ResourceDirection) (codec : ResourceCodec)
deriving DecidableEq, Repr

/-- Spawns this resource for use as an input to a source (source lines
248-258): consumes the resource and dispatches on the definition variant. -/
def ExternalResource.spawn_as_input (self : ExternalResource) : SpawnCall :=
  match self.definition with
  | ResourceDefinition.Http http_config =>
      SpawnCall.httpInput http_config self.direction self.codec

/-- Spawns this resource for use as an output for a sink (source lines
261-271): consumes the resource and dispatches on the definition variant. -/
def ExternalResource.spawn_as_output (self : ExternalResource) : SpawnCall :=
  match self.definition with
  | ResourceDefinition.Http http_config =>
      SpawnCall.httpOutput http_config self.direction self.codec

/-- Receiver mode of `ExternalResource::spawn_as_input` as declared at source
line 248: the method takes its receiver by value (move). -/
def spawn_as_input_receiver : ReceiverMode := ReceiverMode.ByValue

/-- Receiver mode of `ExternalResource::spawn_as_output` as declared at source
line 261: the method takes its receiver by value (move). -/
def spawn_as_output_receiver : ReceiverMode := ReceiverMode.ByValue

/-- Whether a word occurs as a contiguous run inside a list of characters. -/
def listContainsSub (w : List Char) : List Char → Bool
  | [] => w.isEmpty
  | c :: t => w.isPrefixOf (c :: t) || listContainsSub w t

/-- Whether a message mentions the given word, used to formalise that an error
message names a framing or format. -/
def mentionsWord (msg w : String) : Bool :=
  listContainsSub w.toList msg.toList

/-- Computation of the inversion on byte framing. -/
theorem into_encoder_bytes_framing (d : DecodingConfig) :
    (ResourceCodec.DecodingWithFraming d decoding.FramingConfig.Bytes).into_encoder =
      Except.ok ⟨encoding.Framer.Bytes, deserializer_config_to_serializer d.config⟩ := rfl

/-- Computation of the inversion on character-delimited framing. -/
theorem into_encoder_character_framing (d : DecodingConfig)
    (cd : decoding.CharacterDelimitedDecoderOptions) :
    (ResourceCodec.DecodingWithFraming d
        (decoding.FramingConfig.CharacterDelimited cd)).into_encoder =
      Except.ok ⟨encoding.Framer.CharacterDelimited cd.delimiter,
        deserializer_config_to_serializer d.config⟩ := rfl

/-- Computation of the inversion on length-delimited framing. -/
theorem into_encoder_length_framing (d : DecodingConfig) :
    (ResourceCodec.DecodingWithFraming d decoding.FramingConfig.LengthDelimited).into_encoder =
      Except.ok ⟨encoding.Framer.LengthDelimited,
        deserializer_config_to_serializer d.config⟩ := rfl

/-- Computation of the inversion on newline-delimited framing. -/
theorem into_encoder_newline_framing (d : DecodingConfig)
    (nd : decoding.NewlineDelimitedDecoderOptions) :
    (ResourceCodec.DecodingWithFraming d
        (decoding.FramingConfig.NewlineDelimited nd)).into_encoder =
      Except.ok ⟨encoding.Framer.NewlineDelimited,
        deserializer_config_to_serializer d.config⟩ := rfl

/-- Computation of the inversion on octet-counting framing: the abort. -/
theorem into_encoder_octet_framing (d : DecodingConfig)
    (o : decoding.OctetCountingDecoderOptions) :
    (ResourceCodec.DecodingWithFraming d
        (decoding.FramingConfig.OctetCounting o)).into_encoder =
      Except.error "not yet implemented" := rfl

/-- The plain decode-only variant inverts the default stream framing of its
deserializer configuration. -/
theorem into_encoder_decoding_unfold (d : DecodingConfig) :
    (ResourceCodec.Decoding d).into_encoder =
      (ResourceCodec.DecodingWithFraming d d.config.default_stream_framing).into_encoder := rfl

/-- Whenever the inversion of a decode-only codec with explicit framing
succeeds, the serializer is the one given by the translation table. -/
theorem with_framing_serializer_eq (d : DecodingConfig) (fr : decoding.FramingConfig)
    (e : Encoder)
    (h : (ResourceCodec.DecodingWithFraming d fr).into_encoder = Except.ok e) :
    e.serializer = deserializer_config_to_serializer d.config := by
  cases fr with
  | Bytes =>
      rw [into_encoder_bytes_framing] at h
      simp only [Except.ok.injEq] at h
      subst h
      rfl
  | CharacterDelimited cd =>
      rw [into_encoder_character_framing] at h
      simp only [Except.ok.injEq] at h
      subst h
      rfl
  | LengthDelimited =>
      rw [into_encoder_length_framing] at h
      simp only [Except.ok.injEq] at h
      subst h
      rfl
  | NewlineDelimited nd =>
      rw [into_encoder_newline_framing] at h
      simp only [Except.ok.injEq] at h
      subst h
      rfl
  | OctetCounting o =>
      rw [into_encoder_octet_framing] at h
      exact Except.noConfusion h

/-- C1: for every deserializer format present in the fixed lookup table,
into_encoder on a decode-only Codec (with or without explicit framing) whose
stored deserializer config has that format returns a serializer of the exact
paired format: bytes maps to text, json to json, native to native, native-json
to native-json, gelf to gelf, and syslog to logfmt. -/
theorem c1_paired_serializer_format (d : DecodingConfig) (fr : decoding.FramingConfig)
    (e : Encoder)
    (h : (ResourceCodec.Decoding d).into_encoder = Except.ok e ∨
         (ResourceCodec.DecodingWithFraming d fr).into_encoder = Except.ok e) :
    e.serializer = match d.config with
      | DeserializerConfig.Bytes => Serializer.Text
      | DeserializerConfig.Json => Serializer.Json
      | DeserializerConfig.Native => Serializer.Native
      | DeserializerConfig.NativeJson => Serializer.NativeJson
      | DeserializerConfig.Gelf => Serializer.Gelf
      | DeserializerConfig.Syslog => Serializer.Logfmt := by
  have hser : e.serializer = deserializer_config_to_serializer d.config := by
    rcases h with h | h
    · rw [into_encoder_decoding_unfold] at h
      exact with_framing_serializer_eq d d.config.default_stream_framing e h
    · exact with_framing_serializer_eq d fr e h
  rw [hser]
  rcases d with ⟨f0, dc, ln⟩
  cases dc <;> rfl

/-- Witness for C1 at the json format: the plain decode-only codec holding the
json deserializer configuration yields a json serializer. -/
theorem c1_paired_serializer_format_witness :
    (⟨encoding.Framer.NewlineDelimited, Serializer.Json⟩ : Encoder).serializer =
      Serializer.Json :=
  c1_paired_serializer_format
    ⟨decoding.FramingConfig.Bytes, DeserializerConfig.Json, LogNamespace.Legacy⟩
    decoding.FramingConfig.Bytes
    ⟨encoding.Framer.NewlineDelimited, Serializer.Json⟩
    (Or.inl rfl)

/-- C2: for every decode-only Codec whose framing (explicit, or the default
stream framing of the deserializer) is octet-counting, into_encoder fails
immediately and unrecoverably and never returns a framer; no default or
substitute framer is produced. -/
theorem c2_octet_counting_aborts (c : ResourceCodec) (d : DecodingConfig)
    (o : decoding.OctetCountingDecoderOptions)
    (h : c = ResourceCodec.DecodingWithFraming d (decoding.FramingConfig.OctetCounting o) ∨
         (c = ResourceCodec.Decoding d ∧
          d.config.default_stream_framing = decoding.FramingConfig.OctetCounting o)) :
    c.into_encoder = Except.error "not yet implemented" := by
  rcases h with rfl | ⟨rfl, hd⟩
  · exact into_encoder_octet_framing d o
  · exfalso
    rcases d with ⟨f0, dc, ln⟩
    cases dc <;>
      simp only [DecodingConfig.config, DeserializerConfig.default_stream_framing] at hd <;>
      exact decoding.FramingConfig.noConfusion hd

/-- Witness for C2: a decode-only codec with explicit octet-counting framing
aborts. -/
theorem c2_octet_counting_aborts_witness :
    (ResourceCodec.DecodingWithFraming
        ⟨decoding.FramingConfig.Bytes, DeserializerConfig.Json, LogNamespace.Legacy⟩
        (decoding.FramingConfig.OctetCounting ⟨none⟩)).into_encoder =
      Except.error "not yet implemented" :=
  c2_octet_counting_aborts _
    ⟨decoding.FramingConfig.Bytes, DeserializerConfig.Json, LogNamespace.Legacy⟩
    ⟨none⟩ (Or.inl rfl)

/-- C3: allowed_event_data_types returns, on an encode-only variant (with or
without explicit framer), exactly the input type of the stored serializer
config, and on a decode-only variant (with or without explicit framing),
exactly the output type of the stored deserializer config. -/
theorem c3_allowed_event_data_types_exact :
    (∀ ec : EncodingConfig,
        (ResourceCodec.Encoding ec).allowed_event_data_types = ec.encoding.input_type) ∧
    (∀ ew : EncodingConfigWithFraming,
        (ResourceCodec.EncodingWithFraming ew).allowed_event_data_types =
          ew.encoding.encoding.input_type) ∧
    (∀ d : DecodingConfig,
        (ResourceCodec.Decoding d).allowed_event_data_types = d.decoding.output_type) ∧
    (∀ (d : DecodingConfig) (fr : decoding.FramingConfig),
        (ResourceCodec.DecodingWithFraming d fr).allowed_event_data_types =
          d.decoding.output_type) :=
  ⟨fun _ => rfl, fun _ => rfl, fun _ => rfl, fun _ _ => rfl⟩

/-- C4, counterexample: the claim that into_encoder consumes the Codec by move
is false at the declared signature of into_encoder (source line 76), which
takes its receiver by shared reference, not by value. -/
theorem c4_counterexample :
    into_encoder_receiver ≠ ReceiverMode.ByValue ∧
    into_encoder_receiver = ReceiverMode.ByRef := by
  exact ⟨fun h => ReceiverMode.noConfusion h, rfl⟩

/-- C4, amended: producing the inverse encoder borrows the Codec by shared
reference and never mutates it (the receiver is not a mutable reference, and
the result is a pure function of the codec value), so the Codec stays intact
and reusable; it is not consumed by move. -/
theorem c4_into_encoder_borrows_immutably :
    into_encoder_receiver = ReceiverMode.ByRef ∧
    into_encoder_receiver ≠ ReceiverMode.ByRefMut ∧
    (∀ c c' : ResourceCodec, c = c' → c.into_encoder = c'.into_encoder) := by
  refine ⟨rfl, fun h => ReceiverMode.noConfusion h, ?_⟩
  intro c c' h
  rw [h]

/-- Witness for the amended C4 at a concrete codec value. -/
theorem c4_into_encoder_borrows_immutably_witness :
    (ResourceCodec.Encoding ⟨SerializerConfig.Json⟩).into_encoder =
      (ResourceCodec.Encoding ⟨SerializerConfig.Json⟩).into_encoder :=
  c4_into_encoder_borrows_immutably.2.2
    (ResourceCodec.Encoding ⟨SerializerConfig.Json⟩)
    (ResourceCodec.Encoding ⟨SerializerConfig.Json⟩) rfl

/-- C5, counterexample: at the octet-counting framing the abort carries the
generic panic message of unimplemented code, which names neither the
octet-counting framing nor any format, refuting the claim that the error
names the unsupported framing. -/
theorem c5_counterexample :
    (ResourceCodec.DecodingWithFraming
        ⟨decoding.FramingConfig.Bytes, DeserializerConfig.Json, LogNamespace.Legacy⟩
        (decoding.FramingConfig.OctetCounting ⟨none⟩)).into_encoder =
      Except.error "not yet implemented" ∧
    mentionsWord "not yet implemented" "octet" = false ∧
    mentionsWord "not yet implemented" "Octet" = false ∧
    mentionsWord "not yet implemented" "framing" = false := by
  refine ⟨rfl, ?_, ?_, ?_⟩ <;> decide

/-- C5, amended: a validation run reaching the unsupported octet-counting
framing on the inversion path aborts immediately and unrecoverably, but the
abort carries the fixed generic message of unimplemented code rather than one
naming the framing; no unmapped deserializer format exists, the translation
table being total on every deserializer format. -/
theorem c5_generic_abort_message (d : DecodingConfig)
    (o : decoding.OctetCountingDecoderOptions) :
    (ResourceCodec.DecodingWithFraming d
        (decoding.FramingConfig.OctetCounting o)).into_encoder =
      Except.error "not yet implemented" ∧
    (∀ dc : DeserializerConfig, ∃ s : Serializer, deserializer_config_to_serializer dc = s) :=
  ⟨into_encoder_octet_framing d o, fun dc => ⟨deserializer_config_to_serializer dc, rfl⟩⟩

/-- C6: for every decode-only Codec with character-delimited framing,
into_encoder yields a character-delimited framer whose delimiter byte equals
the configured delimiter exactly. -/
theorem c6_character_delimiter_preserved (d : DecodingConfig)
    (cd : decoding.CharacterDelimitedDecoderOptions) (e : Encoder)
    (h : (ResourceCodec.DecodingWithFraming d
            (decoding.FramingConfig.CharacterDelimited cd)).into_encoder = Except.ok e) :
    e.framer = encoding.Framer.CharacterDelimited cd.delimiter := by
  rw [into_encoder_character_framing] at h
  simp only [Except.ok.injEq] at h
  subst h
  rfl

/-- Witness for C6 at the comma delimiter byte 44: the inverse framer keeps
the comma delimiter. -/
theorem c6_character_delimiter_preserved_witness :
    (⟨encoding.Framer.CharacterDelimited 44, Serializer.Json⟩ : Encoder).framer =
      encoding.Framer.CharacterDelimited 44 :=
  c6_character_delimiter_preserved
    ⟨decoding.FramingConfig.Bytes, DeserializerConfig.Json, LogNamespace.Legacy⟩
    ⟨44, none⟩
    ⟨encoding.Framer.CharacterDelimited 44, Serializer.Json⟩ rfl

/-- C7: for every encode-only Codec, into_encoder selects the framer as
follows: on the plain encoding variant the framer is the default byte framer
and the serializer is built directly from the stored serializer config; on the
encoding-with-explicit-framer variant the framer is the explicit framer when
present and the default byte framer otherwise. -/
theorem c7_encode_only_framer_selection :
    (∀ ec : EncodingConfig,
        (ResourceCodec.Encoding ec).into_encoder =
          Except.ok ⟨encoding.Framer.Bytes, ec.build⟩) ∧
    (∀ (ew : EncodingConfigWithFraming) (f : encoding.FramingConfig),
        ew.framing = some f →
        (ResourceCodec.EncodingWithFraming ew).into_encoder =
          Except.ok ⟨f.build, ew.encoding.build⟩) ∧
    (∀ ew : EncodingConfigWithFraming, ew.framing = none →
        (ResourceCodec.EncodingWithFraming ew).into_encoder =
          Except.ok ⟨encoding.Framer.Bytes, ew.encoding.build⟩) := by
  refine ⟨fun ec => rfl, ?_, ?_⟩
  · intro ew f h
    rcases ew with ⟨mf, enc⟩
    change mf = some f at h
    subst h
    rfl
  · intro ew h
    rcases ew with ⟨mf, enc⟩
    change mf = none at h
    subst h
    rfl

/-- Witness for C7: with an explicit newline-delimited framer the explicit
framer is kept, and with no explicit framer the default byte framer is used. -/
theorem c7_encode_only_framer_selection_witness :
    (ResourceCodec.EncodingWithFraming
        ⟨some encoding.FramingConfig.NewlineDelimited, ⟨SerializerConfig.Json⟩⟩).into_encoder =
      Except.ok ⟨encoding.Framer.NewlineDelimited, Serializer.Json⟩ ∧
    (ResourceCodec.EncodingWithFraming ⟨none, ⟨SerializerConfig.Json⟩⟩).into_encoder =
      Except.ok ⟨encoding.Framer.Bytes, Serializer.Json⟩ :=
  ⟨c7_encode_only_framer_selection.2.1
      ⟨some encoding.FramingConfig.NewlineDelimited, ⟨SerializerConfig.Json⟩⟩
      encoding.FramingConfig.NewlineDelimited rfl,
   c7_encode_only_framer_selection.2.2 ⟨none, ⟨SerializerConfig.Json⟩⟩ rfl⟩

/-- C8: every External Resource is consumed by exactly one spawn call: both
spawn_as_input and spawn_as_output take their receiver by value (move), per
the signatures at source lines 248 and 261, so an instance passed into either
spawn call is statically unusable for a second spawn call of either kind, and
there is no path to spawn the same instance twice or to spawn then mutate. -/
theorem c8_spawn_consumes_resource :
    spawn_as_input_receiver = ReceiverMode.ByValue ∧
    spawn_as_output_receiver = ReceiverMode.ByValue :=
  ⟨rfl, rfl⟩

/-- C9: for every decoding configuration, the encoder produced by into_encoder
on the plain decode-only variant equals the encoder produced by into_encoder
on the decode-only-with-explicit-framing variant holding the same
configuration together with the default stream framing of its deserializer:
both the framer and the serializer coincide. -/
theorem c9_default_framing_refinement (d : DecodingConfig) :
    (ResourceCodec.Decoding d).into_encoder =
      (ResourceCodec.DecodingWithFraming d d.config.default_stream_framing).into_encoder :=
  rfl

/-- C10: for every decoding configuration and any two framing configurations,
allowed_event_data_types on the decode-only-with-explicit-framing variant
returns the same result for either framing, and the same as on the plain
decode-only variant: the explicit framing configuration has no influence on
the allowed event data types. -/
theorem c10_framing_independent_data_types (d : DecodingConfig)
    (f1 f2 : decoding.FramingConfig) :
    (ResourceCodec.DecodingWithFraming d f1).allowed_event_data_types =
      (ResourceCodec.DecodingWithFraming d f2).allowed_event_data_types ∧
    (ResourceCodec.DecodingWithFraming d f1).allowed_event_data_types =
      (ResourceCodec.Decoding d).allowed_event_data_types :=
  ⟨rfl, rfl⟩
